import Mathlib

/-!
Shallow embedding of `RestAPI_CREATE_ORG_TEAMS-MEMBERS.py`, a one-shot
migration script that copies teams and team memberships from one GitHub
organization to another over the HTTP API.

The embedding models:
  * JSON values exchanged with the API (`JValue`), with Python semantics for
    truthiness, subscripting (`KeyError` on a missing key, `TypeError` on a
    non-dict), iteration, and `str()` interpolation into f-strings;
  * the network as an oracle `Env : Request → Response`;
  * each Python function as a Lean function returning the list of observable
    events (HTTP calls and `print`s, in order) together with either a normal
    return value or a propagating Python exception.
-/

/-- JSON values, as produced by `response.json()` and held in Python dicts. -/
inductive JValue where
  | null
  | bool (b : Bool)
  | num (n : Int)
  | str (s : String)
  | arr (xs : List JValue)
  | obj (fields : List (String × JValue))
deriving Repr

/-- A single-quote character, used by Python `repr` of strings. -/
def pyQuote : String := String.mk [Char.ofNat 39]

mutual

/-- Python `repr` of a JSON-like value (used by `str()` on lists/dicts). -/
def JValue.pyRepr : JValue → String
  | .null => "None"
  | .bool true => "True"
  | .bool false => "False"
  | .num n => toString n
  | .str s => pyQuote ++ s ++ pyQuote
  | .arr xs => "[" ++ pyReprList xs ++ "]"
  | .obj fs => "\x7b" ++ pyReprFields fs ++ "\x7d"

/-- Comma-separated `repr`s of list elements. -/
def pyReprList : List JValue → String
  | [] => ""
  | [x] => x.pyRepr
  | x :: y :: xs => x.pyRepr ++ ", " ++ pyReprList (y :: xs)

/-- Comma-separated `repr`s of dict entries. -/
def pyReprFields : List (String × JValue) → String
  | [] => ""
  | [(k, v)] => pyQuote ++ k ++ pyQuote ++ ": " ++ v.pyRepr
  | (k, v) :: f :: fs =>
      pyQuote ++ k ++ pyQuote ++ ": " ++ v.pyRepr ++ ", " ++ pyReprFields (f :: fs)

end

/-- Python `str()` of a value, as interpolated into an f-string. -/
def JValue.pyStr : JValue → String
  | .str s => s
  | v => v.pyRepr

/-- Python `str()` of an optional string (`None` prints as `"None"`),
as interpolated into an f-string. -/
def pyOptStr : Option String → String
  | none => "None"
  | some s => s

/-- Python truthiness of a JSON-like value. -/
def JValue.truthy : JValue → Bool
  | .null => false
  | .bool b => b
  | .num n => n != 0
  | .str s => !s.isEmpty
  | .arr xs => !xs.isEmpty
  | .obj fs => !fs.isEmpty

/-- Python truthiness of an optional JSON value (`None` is falsy). -/
def optTruthy : Option JValue → Bool
  | none => false
  | some v => v.truthy

/-- Python truthiness of an optional string (`None` and `""` are falsy). -/
def strOptTruthy : Option String → Bool
  | none => false
  | some s => !s.isEmpty

/-- Python exceptions that the script can raise. -/
inductive PyErr where
  | keyError (k : String)
  | typeError
deriving Repr, DecidableEq

/-- Python subscripting `v[k]` with a string key: a value on a dict holding
the key, `KeyError` on a dict missing it, `TypeError` otherwise. -/
def JValue.getItem : JValue → String → Except PyErr JValue
  | .obj fs, k =>
      match fs.lookup k with
      | some v => .ok v
      | none => .error (.keyError k)
  | _, _ => .error .typeError

/-- Python iteration `for x in v`: list elements, dict keys, characters of a
string; `TypeError` on non-iterables. -/
def pyIter : JValue → Except PyErr (List JValue)
  | .arr xs => .ok xs
  | .obj fs => .ok (fs.map fun p => .str p.1)
  | .str s => .ok (s.toList.map fun c => .str (String.mk [c]))
  | _ => .error .typeError

/-- HTTP methods used by the script. -/
inductive Method where
  | GET
  | POST
  | PUT
deriving Repr, DecidableEq

/-- An HTTP request as issued by the `requests` calls: method, URL, headers,
and the JSON body (only `create_team` sends one). -/
structure Request where
  method : Method
  url : String
  headers : List (String × String)
  jsonBody : Option JValue
deriving Repr

/-- An HTTP response: status code and parsed JSON body. -/
structure Response where
  status : Nat
  body : JValue
deriving Repr

/-- The network oracle: what the platform answers to each request. -/
def Env : Type := Request → Response

/-- Observable events of a run, in order: HTTP calls (with the response the
oracle gave) and `print`ed lines. -/
inductive Event where
  | http (req : Request) (resp : Response)
  | printed (s : String)
deriving Repr

/-- `apiUrl = "https://api.github.com"` (line 22 of the script). -/
def apiUrl : String := "https://api.github.com"

/-- The headers dict `{"Authorization": f"Bearer {access_token}"}` built by
every API function. -/
def bearerHeaders (access_token : Option String) : List (String × String) :=
  [("Authorization", "Bearer " ++ pyOptStr access_token)]

/-- The GET request issued by `get_teams`. -/
def getTeamsRequest (source_org : Option String) (access_token : Option String) :
    Request :=
  ⟨.GET, apiUrl ++ "/orgs/" ++ pyOptStr source_org ++ "/teams",
    bearerHeaders access_token, none⟩

/-- `get_teams(source_org, access_token)` (lines 24-44): GET the org's teams;
on 200 return the parsed JSON, otherwise print a diagnostic and return None.
Raises nothing. -/
def get_teams (source_org : Option String) (access_token : Option String)
    (env : Env) : List Event × Option JValue :=
  let req := getTeamsRequest source_org access_token
  let response := env req
  if response.status = 200 then
    ([.http req response], some response.body)
  else
    ([.http req response,
      .printed ("Failed to fetch teams from " ++ pyOptStr source_org ++
        ". Status code: " ++ toString response.status)],
     none)

/-- The GET request issued by `get_team_members`. -/
def getMembersRequest (team_id : JValue) (access_token : Option String) :
    Request :=
  ⟨.GET, apiUrl ++ "/teams/" ++ team_id.pyStr ++ "/members",
    bearerHeaders access_token, none⟩

/-- `get_team_members(team_id, access_token)` (lines 46-67): GET the team's
members; on 200 return the parsed JSON, otherwise print a diagnostic and
return None. Raises nothing. -/
def get_team_members (team_id : JValue) (access_token : Option String)
    (env : Env) : List Event × Option JValue :=
  let req := getMembersRequest team_id access_token
  let response := env req
  if response.status = 200 then
    ([.http req response], some response.body)
  else
    ([.http req response,
      .printed ("Failed to fetch members for team " ++ team_id.pyStr ++
        ". Status code: " ++ toString response.status)],
     none)

/-- The POST request issued by `create_team`: the source team's payload is
passed through verbatim as the JSON body. -/
def createTeamRequest (destination_org : Option String)
    (access_token : Option String) (team_data : JValue) : Request :=
  ⟨.POST, apiUrl ++ "/orgs/" ++ pyOptStr destination_org ++ "/teams",
    bearerHeaders access_token, some team_data⟩

/-- `create_team(destination_org, access_token, team_data)` (lines 69-89):
POST the payload; on 201 print a success line and return the created-team
JSON, otherwise print a failure line and return None. Both print statements
subscript `team_data["name"]`, so a payload without that key raises
`KeyError` after the POST has been issued. -/
def create_team (destination_org : Option String)
    (access_token : Option String) (team_data : JValue) (env : Env) :
    List Event × Except PyErr (Option JValue) :=
  let req := createTeamRequest destination_org access_token team_data
  let response := env req
  if response.status = 201 then
    match team_data.getItem "name" with
    | .error e => ([.http req response], .error e)
    | .ok nm =>
        ([.http req response,
          .printed ("Team - " ++ nm.pyStr ++ " created successfully in " ++
            pyOptStr destination_org)],
         .ok (some response.body))
  else
    match team_data.getItem "name" with
    | .error e => ([.http req response], .error e)
    | .ok nm =>
        ([.http req response,
          .printed ("Failed to create team " ++ nm.pyStr ++ " in " ++
            pyOptStr destination_org ++ ". Status code: " ++
            toString response.status)],
         .ok none)

/-- The guard diagnostic printed by `add_members_to_team` on a falsy id. -/
def invalidTeamIdMsg : String := "Team ID is not valid. Skipping adding members."

/-- The PUT request issued by `add_members_to_team` for one username. -/
def memberPutRequest (team_id : JValue) (access_token : Option String)
    (username : JValue) : Request :=
  ⟨.PUT,
    apiUrl ++ "/teams/" ++ team_id.pyStr ++ "/memberships" ++ "/" ++
      username.pyStr,
    bearerHeaders access_token, none⟩

/-- The per-member loop of `add_members_to_team` (lines 108-115): for each
member subscript `member["login"]` (KeyError aborts the loop), PUT the
membership URL, and print a success or failure line; the loop continues
regardless of the PUT status. -/
def addMembersLoop (team_id : JValue) (access_token : Option String)
    (env : Env) : List JValue → List Event × Except PyErr Unit
  | [] => ([], .ok ())
  | member :: rest =>
    match member.getItem "login" with
    | .error e => ([], .error e)
    | .ok username =>
        let req := memberPutRequest team_id access_token username
        let response := env req
        let line :=
          if response.status = 200 then
            Event.printed ("Member - " ++ username.pyStr ++
              " added successfully to team " ++ team_id.pyStr)
          else
            Event.printed ("Failed to add member " ++ username.pyStr ++
              " to team " ++ team_id.pyStr ++ ". Status code: " ++
              toString response.status)
        let tail := addMembersLoop team_id access_token env rest
        (.http req response :: line :: tail.1, tail.2)

/-- `add_members_to_team(team_id, access_token, members)` (lines 91-115):
if the team id is falsy, print the guard diagnostic and return before any
HTTP call; otherwise iterate the members and PUT one membership per member. -/
def add_members_to_team (team_id : JValue) (access_token : Option String)
    (members : JValue) (env : Env) : List Event × Except PyErr Unit :=
  if !team_id.truthy then
    ([.printed invalidTeamIdMsg], .ok ())
  else
    match pyIter members with
    | .error e => ([], .error e)
    | .ok mlist => addMembersLoop team_id access_token env mlist

/-- The body of the `for team in teams` loop of `transfer_teams`
(lines 129-138): create the team in the destination org; if the result is
truthy, read its `id` and the source team's `id`, fetch the source members,
and, if those are truthy, add them to the new team. -/
def processTeam (destination_org : Option String)
    (access_token : Option String) (env : Env) (team : JValue) :
    List Event × Except PyErr Unit :=
  let created := create_team destination_org access_token team env
  match created.2 with
  | .error e => (created.1, .error e)
  | .ok new_team_response =>
    if optTruthy new_team_response then
      match (new_team_response.getD .null).getItem "id" with
      | .error e => (created.1, .error e)
      | .ok new_team_id =>
        match team.getItem "id" with
        | .error e => (created.1, .error e)
        | .ok tid =>
          let fetched := get_team_members tid access_token env
          if optTruthy fetched.2 then
            let added :=
              add_members_to_team new_team_id access_token
                (fetched.2.getD .null) env
            (created.1 ++ fetched.1 ++ added.1, added.2)
          else
            (created.1 ++ fetched.1, .ok ())
    else
      (created.1, .ok ())

/-- The `for team in teams` loop of `transfer_teams`: process the teams in
list order; an exception in a team's processing aborts the remaining teams. -/
def transferLoop (destination_org : Option String)
    (access_token : Option String) (env : Env) :
    List JValue → List Event × Except PyErr Unit
  | [] => ([], .ok ())
  | team :: rest =>
    let step := processTeam destination_org access_token env team
    match step.2 with
    | .error e => (step.1, .error e)
    | .ok _ =>
        let tail := transferLoop destination_org access_token env rest
        (step.1 ++ tail.1, tail.2)

/-- `transfer_teams(source_org, destination_org, access_token)`
(lines 117-138): list the source teams; if the result is truthy, iterate it
and process each team. -/
def transfer_teams (source_org : Option String)
    (destination_org : Option String) (access_token : Option String)
    (env : Env) : List Event × Except PyErr Unit :=
  let listed := get_teams source_org access_token env
  if optTruthy listed.2 then
    match pyIter (listed.2.getD .null) with
    | .error e => (listed.1, .error e)
    | .ok tlist =>
        let looped := transferLoop destination_org access_token env tlist
        (listed.1 ++ looped.1, looped.2)
  else
    (listed.1, .ok ())

/-- The warning printed when the access-token environment variable is unset
(line 9 of the script). -/
def tokenWarningMsg : String :=
  "Error: GitHub access token not found. Please set GITHUB_ACCESS_TOKEN environmental variable."

/-- The module-level credential load (lines 7-9): read the token; if it is
falsy (unset or empty), print the warning and continue. -/
def credentialLoad (ghToken : Option String) : List Event :=
  if strOptTruthy ghToken then [] else [.printed tokenWarningMsg]

/-- The whole script run (lines 7-9 and 140): credential load followed by
`transfer_teams(source_organization, destination_organization, access_token)`. -/
def mainProgram (ghToken : Option String) (source_org : Option String)
    (destination_org : Option String) (env : Env) :
    List Event × Except PyErr Unit :=
  let run := transfer_teams source_org destination_org ghToken env
  (credentialLoad ghToken ++ run.1, run.2)

/-! ## Observation helpers for stating properties about traces -/

/-- Is the event an HTTP call? -/
def Event.isHttp : Event → Bool
  | .http _ _ => true
  | .printed _ => false

/-- Is the event a team-creation call (POST)? -/
def Event.isPost : Event → Bool
  | .http req _ => req.method == .POST
  | .printed _ => false

/-- Is the event a member-addition call (PUT)? -/
def Event.isPut : Event → Bool
  | .http req _ => req.method == .PUT
  | .printed _ => false

/-- Is the event a member-fetch call (a GET to some team's members URL)? -/
def Event.isMemberFetch : Event → Bool
  | .http req _ => req.method == .GET && req.jsonBody.isNone &&
      (apiUrl ++ "/teams/").toList.isPrefixOf req.url.toList
  | .printed _ => false

/-- Is the event a creation call that the platform answered with 201? -/
def Event.isSuccCreate : Event → Bool
  | .http req resp => req.method == .POST && resp.status == 201
  | .printed _ => false

/-- Scans a trace from the start: `true` iff no member-addition call (PUT)
occurs before the first successful creation call (POST answered 201). -/
def putOnlyAfterSuccCreate : List Event → Bool
  | [] => true
  | e :: rest =>
    if e.isSuccCreate then true
    else if e.isPut then false
    else putOnlyAfterSuccCreate rest

/-- Does `pat` occur as a contiguous substring of `s`? -/
def strContains (s pat : String) : Bool :=
  s.toList.tails.any fun t => pat.toList.isPrefixOf t

/-- The `login` value of a member object (`.null` when the key is absent);
used only to state which username a PUT is addressed to. -/
def loginOf (m : JValue) : JValue :=
  match m.getItem "login" with
  | .ok v => v
  | .error _ => .null

/-! ## Concrete oracles and payloads used to instantiate the theorems -/

/-- A source team with id 1 and name "core". -/
def teamCore : JValue := .obj [("id", .num 1), ("name", .str "core")]

/-- A member object with login "alice". -/
def memberAlice : JValue := .obj [("login", .str "alice")]

/-- A truthy team payload that lacks the "name" key. -/
def teamNoName : JValue := .obj [("id", .num 1)]

/-- A source team with id 2 and name "infra". -/
def teamInfra : JValue := .obj [("id", .num 2), ("name", .str "infra")]

/-- An oracle on which every call fails with status 500. -/
def envFail : Env := fun _ => ⟨500, .null⟩

/-- A happy-path oracle: listing `Acme`'s teams yields `[teamCore]`, member
listings yield `[memberAlice]`, creations succeed with id 101, PUTs
succeed. -/
def envHappy : Env := fun req =>
  match req.method with
  | .GET =>
      if req.url = apiUrl ++ "/orgs/Acme/teams" then ⟨200, .arr [teamCore]⟩
      else ⟨200, .arr [memberAlice]⟩
  | .POST => ⟨201, .obj [("id", .num 101), ("name", .str "core")]⟩
  | .PUT => ⟨200, .null⟩

/-- An oracle whose team listing returns two teams, the first lacking a
"name" key; creations succeed with id 101. -/
def envNoName : Env := fun req =>
  match req.method with
  | .GET => ⟨200, .arr [teamNoName, teamInfra]⟩
  | .POST => ⟨201, .obj [("id", .num 101)]⟩
  | .PUT => ⟨200, .null⟩

/-- Like `envHappy`, but every member listing returns the empty array. -/
def envEmptyMembers : Env := fun req =>
  match req.method with
  | .GET =>
      if req.url = apiUrl ++ "/orgs/Acme/teams" then ⟨200, .arr [teamCore]⟩
      else ⟨200, .arr []⟩
  | .POST => ⟨201, .obj [("id", .num 101), ("name", .str "core")]⟩
  | .PUT => ⟨200, .null⟩

/-- Every HTTP event of a trace carries the bearer headers built from
`tok`. -/
def HeadersOk (tok : Option String) (tr : List Event) : Prop :=
  ∀ req resp, Event.http req resp ∈ tr → req.headers = bearerHeaders tok

/-! ## General lemmas about the embedded functions -/

theorem isHttp_http (r : Request) (p : Response) :
    Event.isHttp (.http r p) = true := rfl

theorem isHttp_ite_printed (c : Prop) [Decidable c] (a b : String) :
    Event.isHttp (if c then Event.printed a else Event.printed b) = false := by
  split <;> rfl

theorem isPut_ite_printed (c : Prop) [Decidable c] (a b : String) :
    Event.isPut (if c then Event.printed a else Event.printed b) = false := by
  split <;> rfl

theorem isPost_ite_printed (c : Prop) [Decidable c] (a b : String) :
    Event.isPost (if c then Event.printed a else Event.printed b) = false := by
  split <;> rfl

theorem strContains_append_right (a b : String) :
    strContains (a ++ b) b = true := by
  simp only [strContains, List.any_eq_true]
  refine ⟨b.toList, ?_, ?_⟩
  · rw [List.mem_tails]
    exact ⟨a.toList, by simp⟩
  · rw [List.isPrefixOf_iff_prefix]

/-- The trace of `get_teams` always starts with its GET event. -/
theorem get_teams_head (so tok : Option String) (env : Env) :
    (get_teams so tok env).1 =
      Event.http (getTeamsRequest so tok) (env (getTeamsRequest so tok)) ::
        (get_teams so tok env).1.tail := by
  simp only [get_teams]
  split <;> rfl

/-- `get_teams` issues no POST. -/
theorem get_teams_no_post (so tok : Option String) (env : Env) :
    (get_teams so tok env).1.filter Event.isPost = [] := by
  simp only [get_teams]
  split <;> rfl

/-- `get_teams` issues no PUT. -/
theorem get_teams_no_put (so tok : Option String) (env : Env) :
    (get_teams so tok env).1.filter Event.isPut = [] := by
  simp only [get_teams]
  split <;> rfl

/-- `get_team_members` issues no POST. -/
theorem get_team_members_no_post (tid : JValue) (tok : Option String)
    (env : Env) :
    (get_team_members tid tok env).1.filter Event.isPost = [] := by
  simp only [get_team_members]
  split <;> rfl

theorem optTruthy_some (v : JValue) : optTruthy (some v) = v.truthy := rfl

/-- The trace of `create_team` is its POST event, followed in the
non-raising cases by one printed line. -/
theorem create_team_trace_cases (dst tok : Option String) (td : JValue)
    (env : Env) :
    (create_team dst tok td env).1 =
      [Event.http (createTeamRequest dst tok td) (env (createTeamRequest dst tok td))] ∨
    ∃ s, (create_team dst tok td env).1 =
      [Event.http (createTeamRequest dst tok td) (env (createTeamRequest dst tok td)),
       Event.printed s] := by
  simp only [create_team]
  split
  · split
    · exact Or.inl rfl
    · exact Or.inr ⟨_, rfl⟩
  · split
    · exact Or.inl rfl
    · exact Or.inr ⟨_, rfl⟩

/-- Decomposition of one loop iteration of `transfer_teams`: either the
trace is just `create_team`'s trace, or the creation succeeded (201, truthy
body carrying an `id`, and the source team has an `id`) and the trace
continues with the member fetch and possibly the member additions. -/
theorem processTeam_decomp (dst tok : Option String) (env : Env) (team : JValue) :
    (processTeam dst tok env team).1 = (create_team dst tok team env).1 ∨
    ∃ ntid tid,
      (env (createTeamRequest dst tok team)).status = 201 ∧
      (env (createTeamRequest dst tok team)).body.truthy = true ∧
      (env (createTeamRequest dst tok team)).body.getItem "id" = .ok ntid ∧
      team.getItem "id" = .ok tid ∧
      ((processTeam dst tok env team).1 =
         (create_team dst tok team env).1 ++ (get_team_members tid tok env).1 ∨
       (processTeam dst tok env team).1 =
         (create_team dst tok team env).1 ++ (get_team_members tid tok env).1 ++
           (add_members_to_team ntid tok
             ((get_team_members tid tok env).2.getD .null) env).1) := by
  by_cases hs : (env (createTeamRequest dst tok team)).status = 201
  · cases hn : team.getItem "name" with
    | error e =>
      have hc : create_team dst tok team env =
          ([Event.http (createTeamRequest dst tok team)
             (env (createTeamRequest dst tok team))], .error e) := by
        simp [create_team, hs, hn]
      left
      simp only [processTeam, hc]
    | ok nm =>
      have hc : create_team dst tok team env =
          ([Event.http (createTeamRequest dst tok team)
             (env (createTeamRequest dst tok team)),
            Event.printed ("Team - " ++ nm.pyStr ++ " created successfully in " ++
              pyOptStr dst)],
           .ok (some (env (createTeamRequest dst tok team)).body)) := by
        simp [create_team, hs, hn]
      by_cases ht : (env (createTeamRequest dst tok team)).body.truthy = true
      · cases hid : (env (createTeamRequest dst tok team)).body.getItem "id" with
        | error e =>
          left
          simp only [processTeam, hc, optTruthy_some, ht, if_pos, Option.getD_some, hid]
        | ok ntid =>
          cases htid : team.getItem "id" with
          | error e =>
            left
            simp only [processTeam, hc, optTruthy_some, ht, if_pos, Option.getD_some,
              hid, htid]
          | ok tid =>
            refine Or.inr ⟨ntid, tid, hs, ht, rfl, rfl, ?_⟩
            by_cases hf : optTruthy (get_team_members tid tok env).2 = true
            · right
              simp only [processTeam, hc, optTruthy_some, ht, if_pos, Option.getD_some,
                hid, htid]
              rw [if_pos hf]
            · left
              simp only [processTeam, hc, optTruthy_some, ht, if_pos, Option.getD_some,
                hid, htid]
              rw [if_neg hf]
      · left
        simp only [processTeam, hc, optTruthy_some, if_neg ht]
  · cases hn : team.getItem "name" with
    | error e =>
      have hc : create_team dst tok team env =
          ([Event.http (createTeamRequest dst tok team)
             (env (createTeamRequest dst tok team))], .error e) := by
        simp [create_team, hs, hn]
      left
      simp only [processTeam, hc]
    | ok nm =>
      have hc : create_team dst tok team env =
          ([Event.http (createTeamRequest dst tok team)
             (env (createTeamRequest dst tok team)),
            Event.printed ("Failed to create team " ++ nm.pyStr ++ " in " ++
              pyOptStr dst ++ ". Status code: " ++
              toString (env (createTeamRequest dst tok team)).status)],
           .ok none) := by
        simp [create_team, hs, hn]
      left
      simp only [processTeam, hc, optTruthy]
      rfl

theorem create_team_no_put (dst tok : Option String) (td : JValue) (env : Env) :
    ∀ e ∈ (create_team dst tok td env).1, e.isPut = false := by
  rcases create_team_trace_cases dst tok td env with h | ⟨s, h⟩ <;> rw [h]
  · intro e he
    simp only [List.mem_singleton] at he
    subst he
    rfl
  · intro e he
    simp only [List.mem_cons, List.not_mem_nil, or_false] at he
    rcases he with rfl | rfl <;> rfl

theorem create_team_posts (dst tok : Option String) (td : JValue) (env : Env) :
    (create_team dst tok td env).1.filter Event.isPost =
      [Event.http (createTeamRequest dst tok td)
        (env (createTeamRequest dst tok td))] := by
  rcases create_team_trace_cases dst tok td env with h | ⟨s, h⟩ <;> rw [h] <;> rfl

theorem create_team_http_only_post (dst tok : Option String) (td : JValue)
    (env : Env) :
    ∀ e ∈ (create_team dst tok td env).1, e.isHttp = true →
      e = Event.http (createTeamRequest dst tok td)
            (env (createTeamRequest dst tok td)) := by
  rcases create_team_trace_cases dst tok td env with h | ⟨s, h⟩ <;> rw [h]
  · intro e he _
    simpa using he
  · intro e he hh
    simp only [List.mem_cons, List.not_mem_nil, or_false] at he
    rcases he with rfl | rfl
    · rfl
    · exact absurd hh (by simp [Event.isHttp])

theorem addMembersLoop_no_post (tid : JValue) (tok : Option String) (env : Env)
    (ms : List JValue) :
    (addMembersLoop tid tok env ms).1.filter Event.isPost = [] := by
  induction ms with
  | nil => rfl
  | cons m rest ih =>
    simp only [addMembersLoop]
    cases m.getItem "login" with
    | error e => rfl
    | ok u =>
      simp only [List.filter_cons, isPost_ite_printed, ih]
      rfl

theorem add_members_no_post (tid : JValue) (tok : Option String)
    (members : JValue) (env : Env) :
    (add_members_to_team tid tok members env).1.filter Event.isPost = [] := by
  simp only [add_members_to_team]
  split
  · rfl
  · cases pyIter members with
    | error e => rfl
    | ok ms => exact addMembersLoop_no_post tid tok env ms

theorem putOnlyAfterSuccCreate_cons_succ (e : Event) (l : List Event)
    (h : e.isSuccCreate = true) :
    putOnlyAfterSuccCreate (e :: l) = true := by
  simp [putOnlyAfterSuccCreate, h]

theorem putOnlyAfterSuccCreate_skip (l1 l2 : List Event)
    (h : ∀ e ∈ l1, e.isPut = false ∧ e.isSuccCreate = false) :
    putOnlyAfterSuccCreate (l1 ++ l2) = putOnlyAfterSuccCreate l2 := by
  induction l1 with
  | nil => rfl
  | cons e rest ih =>
    have he := h e (List.mem_cons_self _ _)
    simp only [List.cons_append, putOnlyAfterSuccCreate, he.1, he.2,
      Bool.false_eq_true, if_false]
    exact ih fun x hx => h x (List.mem_cons_of_mem _ hx)

theorem isSuccCreate_create (dst tok : Option String) (td : JValue)
    (resp : Response) :
    Event.isSuccCreate (.http (createTeamRequest dst tok td) resp) =
      (resp.status == 201) := rfl

theorem create_team_no_succ (dst tok : Option String) (td : JValue) (env : Env)
    (hs : (env (createTeamRequest dst tok td)).status ≠ 201) :
    ∀ e ∈ (create_team dst tok td env).1,
      e.isPut = false ∧ e.isSuccCreate = false := by
  rcases create_team_trace_cases dst tok td env with h | ⟨s, h⟩ <;> rw [h]
  · intro e he
    simp only [List.mem_singleton] at he
    subst he
    refine ⟨rfl, ?_⟩
    simp [isSuccCreate_create, hs]
  · intro e he
    simp only [List.mem_cons, List.not_mem_nil, or_false] at he
    rcases he with rfl | rfl
    · refine ⟨rfl, ?_⟩
      simp [isSuccCreate_create, hs]
    · exact ⟨rfl, rfl⟩

/-- The trace of one loop iteration always starts with the POST event. -/
theorem processTeam_head (dst tok : Option String) (env : Env) (team : JValue) :
    (processTeam dst tok env team).1 =
      Event.http (createTeamRequest dst tok team)
          (env (createTeamRequest dst tok team)) ::
        (processTeam dst tok env team).1.tail := by
  rcases create_team_trace_cases dst tok team env with hc | ⟨s, hc⟩ <;>
    rcases processTeam_decomp dst tok env team with h | ⟨ntid, tid, _, _, _, _, h | h⟩ <;>
    rw [h, hc] <;> rfl

/-- One loop iteration issues exactly one POST: the creation call for its
team, carrying the verbatim payload. -/
theorem processTeam_posts (dst tok : Option String) (env : Env) (team : JValue) :
    (processTeam dst tok env team).1.filter Event.isPost =
      [Event.http (createTeamRequest dst tok team)
        (env (createTeamRequest dst tok team))] := by
  rcases processTeam_decomp dst tok env team with h | ⟨ntid, tid, _, _, _, _, h | h⟩ <;>
    rw [h]
  · exact create_team_posts dst tok team env
  · rw [List.filter_append, create_team_posts, get_team_members_no_post,
      List.append_nil]
  · rw [List.filter_append, List.filter_append, create_team_posts,
      get_team_members_no_post, add_members_no_post, List.append_nil,
      List.append_nil]

theorem transferLoop_putOnly (dst tok : Option String) (env : Env)
    (ts : List JValue) :
    putOnlyAfterSuccCreate (transferLoop dst tok env ts).1 = true := by
  induction ts with
  | nil => rfl
  | cons t rest ih =>
    by_cases hs : (env (createTeamRequest dst tok t)).status = 201
    · have hh := processTeam_head dst tok env t
      have hsc : (Event.http (createTeamRequest dst tok t)
          (env (createTeamRequest dst tok t))).isSuccCreate = true := by
        simp [isSuccCreate_create, hs]
      cases hp2 : (processTeam dst tok env t).2 with
      | error e =>
        simp only [transferLoop, hp2]
        rw [hh]
        exact putOnlyAfterSuccCreate_cons_succ _ _ hsc
      | ok u =>
        simp only [transferLoop, hp2]
        rw [hh, List.cons_append]
        exact putOnlyAfterSuccCreate_cons_succ _ _ hsc
    · rcases processTeam_decomp dst tok env t with h | ⟨_, _, hs2, _⟩
      · have hskip := create_team_no_succ dst tok t env hs
        cases hp2 : (processTeam dst tok env t).2 with
        | error e =>
          simp only [transferLoop, hp2]
          rw [h]
          have h2 := putOnlyAfterSuccCreate_skip (create_team dst tok t env).1 []
            hskip
          rw [List.append_nil] at h2
          rw [h2]
          rfl
        | ok u =>
          simp only [transferLoop, hp2]
          rw [h, putOnlyAfterSuccCreate_skip _ _ hskip]
          exact ih
      · exact absurd hs2 hs

theorem get_teams_skip (so tok : Option String) (env : Env) :
    ∀ e ∈ (get_teams so tok env).1, e.isPut = false ∧ e.isSuccCreate = false := by
  simp only [get_teams]
  split <;> intro e he <;>
    simp only [List.mem_singleton, List.mem_cons, List.not_mem_nil, or_false] at he
  · subst he
    exact ⟨rfl, rfl⟩
  · rcases he with rfl | rfl <;> exact ⟨rfl, rfl⟩

theorem transfer_teams_putOnly (so dst tok : Option String) (env : Env) :
    putOnlyAfterSuccCreate (transfer_teams so dst tok env).1 = true := by
  simp only [transfer_teams]
  split
  · cases pyIter ((get_teams so tok env).2.getD .null) with
    | error e =>
      have h2 := putOnlyAfterSuccCreate_skip (get_teams so tok env).1 []
        (get_teams_skip so tok env)
      rw [List.append_nil] at h2
      rw [h2]
      rfl
    | ok tlist =>
      rw [putOnlyAfterSuccCreate_skip _ _ (get_teams_skip so tok env)]
      exact transferLoop_putOnly dst tok env tlist
  · have h2 := putOnlyAfterSuccCreate_skip (get_teams so tok env).1 []
      (get_teams_skip so tok env)
    rw [List.append_nil] at h2
    rw [h2]
    rfl

theorem isPost_getTeams (so tok : Option String) (p : Response) :
    Event.isPost (.http (getTeamsRequest so tok) p) = false := rfl

theorem transferLoop_posts_of_ok (dst tok : Option String) (env : Env)
    (ts : List JValue) (hok : (transferLoop dst tok env ts).2 = .ok ()) :
    (transferLoop dst tok env ts).1.filter Event.isPost =
      ts.map fun t => Event.http (createTeamRequest dst tok t)
        (env (createTeamRequest dst tok t)) := by
  induction ts with
  | nil => rfl
  | cons t rest ih =>
    cases hp2 : (processTeam dst tok env t).2 with
    | error e =>
      simp only [transferLoop, hp2] at hok
      exact absurd hok (by simp)
    | ok u =>
      simp only [transferLoop, hp2] at hok ⊢
      rw [List.filter_append, processTeam_posts, List.map_cons,
        List.singleton_append, ih hok]

theorem addMembersLoop_spec (tid : JValue) (tok : Option String) (env : Env)
    (ms : List JValue) (h : ∀ m ∈ ms, (m.getItem "login").isOk = true) :
    ((addMembersLoop tid tok env ms).1.filter Event.isHttp =
      ms.map fun m => Event.http (memberPutRequest tid tok (loginOf m))
        (env (memberPutRequest tid tok (loginOf m)))) ∧
    (addMembersLoop tid tok env ms).2 = .ok () := by
  induction ms with
  | nil => exact ⟨rfl, rfl⟩
  | cons m rest ih =>
    have hm := h m (List.mem_cons_self _ _)
    obtain ⟨u, hu⟩ : ∃ u, m.getItem "login" = .ok u := by
      cases hc : m.getItem "login" with
      | ok u => exact ⟨u, rfl⟩
      | error e => rw [hc] at hm; simp [Except.isOk, Except.toBool] at hm
    have hlog : loginOf m = u := by simp [loginOf, hu]
    have hrest := ih fun x hx => h x (List.mem_cons_of_mem _ hx)
    simp only [addMembersLoop, hu]
    refine ⟨?_, hrest.2⟩
    simp only [List.filter_cons, isHttp_http, isHttp_ite_printed, List.map_cons,
      hlog, hrest.1]
    simp

theorem headersOk_append {tok : Option String} {l1 l2 : List Event}
    (h1 : HeadersOk tok l1) (h2 : HeadersOk tok l2) :
    HeadersOk tok (l1 ++ l2) := by
  intro req resp hm
  rcases List.mem_append.mp hm with hm | hm
  · exact h1 req resp hm
  · exact h2 req resp hm

theorem get_teams_headers (so tok : Option String) (env : Env) :
    HeadersOk tok (get_teams so tok env).1 := by
  simp only [get_teams]
  split <;> intro req resp hm <;>
    simp only [List.mem_singleton, List.mem_cons, List.not_mem_nil, or_false] at hm
  · injection hm with h1 h2
    subst h1
    rfl
  · rcases hm with hm | hm
    · injection hm with h1 h2
      subst h1
      rfl
    · exact absurd hm (by simp)

theorem get_team_members_headers (tid : JValue) (tok : Option String) (env : Env) :
    HeadersOk tok (get_team_members tid tok env).1 := by
  simp only [get_team_members]
  split <;> intro req resp hm <;>
    simp only [List.mem_singleton, List.mem_cons, List.not_mem_nil, or_false] at hm
  · injection hm with h1 h2
    subst h1
    rfl
  · rcases hm with hm | hm
    · injection hm with h1 h2
      subst h1
      rfl
    · exact absurd hm (by simp)

theorem create_team_headers (dst tok : Option String) (td : JValue) (env : Env) :
    HeadersOk tok (create_team dst tok td env).1 := by
  rcases create_team_trace_cases dst tok td env with h | ⟨s, h⟩ <;> rw [h] <;>
    intro req resp hm <;>
    simp only [List.mem_singleton, List.mem_cons, List.not_mem_nil, or_false] at hm
  · injection hm with h1 h2
    subst h1
    rfl
  · rcases hm with hm | hm
    · injection hm with h1 h2
      subst h1
      rfl
    · exact absurd hm (by simp)

theorem addMembersLoop_headers (tid : JValue) (tok : Option String) (env : Env)
    (ms : List JValue) :
    HeadersOk tok (addMembersLoop tid tok env ms).1 := by
  induction ms with
  | nil => intro req resp hm; exact absurd hm (by simp [addMembersLoop])
  | cons m rest ih =>
    simp only [addMembersLoop]
    cases m.getItem "login" with
    | error e => intro req resp hm; exact absurd hm (by simp)
    | ok u =>
      intro req resp hm
      simp only [List.mem_cons] at hm
      rcases hm with hm | hm | hm
      · injection hm with h1 h2
        subst h1
        rfl
      · exact absurd hm (by
          intro hc
          have hb := congrArg Event.isHttp hc
          rw [isHttp_ite_printed] at hb
          exact Bool.noConfusion hb)
      · exact ih req resp hm

theorem add_members_headers (tid : JValue) (tok : Option String)
    (members : JValue) (env : Env) :
    HeadersOk tok (add_members_to_team tid tok members env).1 := by
  simp only [add_members_to_team]
  split
  · intro req resp hm
    exact absurd hm (by simp)
  · cases pyIter members with
    | error e => intro req resp hm; exact absurd hm (by simp)
    | ok ms => exact addMembersLoop_headers tid tok env ms

theorem processTeam_headers (dst tok : Option String) (env : Env) (team : JValue) :
    HeadersOk tok (processTeam dst tok env team).1 := by
  rcases processTeam_decomp dst tok env team with h | ⟨ntid, tid, _, _, _, _, h | h⟩ <;>
    rw [h]
  · exact create_team_headers dst tok team env
  · exact headersOk_append (create_team_headers dst tok team env)
      (get_team_members_headers tid tok env)
  · exact headersOk_append (headersOk_append (create_team_headers dst tok team env)
      (get_team_members_headers tid tok env)) (add_members_headers ntid tok _ env)

theorem transferLoop_headers (dst tok : Option String) (env : Env)
    (ts : List JValue) :
    HeadersOk tok (transferLoop dst tok env ts).1 := by
  induction ts with
  | nil => intro req resp hm; exact absurd hm (by simp [transferLoop])
  | cons t rest ih =>
    cases hp2 : (processTeam dst tok env t).2 with
    | error e =>
      simp only [transferLoop, hp2]
      exact processTeam_headers dst tok env t
    | ok u =>
      simp only [transferLoop, hp2]
      exact headersOk_append (processTeam_headers dst tok env t) ih

theorem transfer_teams_headers (so dst tok : Option String) (env : Env) :
    HeadersOk tok (transfer_teams so dst tok env).1 := by
  simp only [transfer_teams]
  split
  · cases pyIter ((get_teams so tok env).2.getD .null) with
    | error e => exact get_teams_headers so tok env
    | ok tlist =>
      exact headersOk_append (get_teams_headers so tok env)
        (transferLoop_headers dst tok env tlist)
  · exact get_teams_headers so tok env

theorem mainProgram_headers (tok so dst : Option String) (env : Env) :
    HeadersOk tok (mainProgram tok so dst env).1 := by
  simp only [mainProgram, credentialLoad]
  split
  · simp only [List.nil_append]
    exact transfer_teams_headers so dst tok env
  · intro req resp hm
    simp only [List.singleton_append, List.mem_cons] at hm
    rcases hm with hm | hm
    · exact absurd hm (by simp)
    · exact transfer_teams_headers so dst tok env req resp hm

/-- The creation-success line never coincides with the guard diagnostic of
`add_members_to_team` (they differ at their sixth character). -/
theorem createdMsg_ne_invalid (x y : String) :
    ("Team - " ++ x ++ " created successfully in " ++ y) ≠ invalidTeamIdMsg := by
  intro h
  have h5 : ("Team - " ++ x ++ " created successfully in " ++ y).data[5]? =
      invalidTeamIdMsg.data[5]? := by rw [h]
  have h6 : (some '-' : Option Char) = some 'I' := h5
  exact absurd h6 (by decide)

/-- C1: member-addition calls (PUTs) for a source team occur only after that
team's creation call returned 201 with a usable identifier, and a failed
creation means the loop iteration issues no member-fetch and no
member-addition call: (i) on a non-201 creation response, the only HTTP
event of the iteration is the POST itself; (ii) if the iteration's trace
contains a PUT, the creation response had status 201 and a truthy body
carrying an `id`; (iii) over the whole `transfer_teams` trace, no PUT
precedes the first successful creation. -/
theorem C1_member_addition_only_after_successful_create
    (so dst tok : Option String) (env : Env) (team : JValue) :
    ((env (createTeamRequest dst tok team)).status ≠ 201 →
      ∀ e ∈ (processTeam dst tok env team).1, e.isHttp = true →
        e = Event.http (createTeamRequest dst tok team)
              (env (createTeamRequest dst tok team))) ∧
    ((∃ e ∈ (processTeam dst tok env team).1, e.isPut = true) →
      (env (createTeamRequest dst tok team)).status = 201 ∧
      (env (createTeamRequest dst tok team)).body.truthy = true ∧
      ((env (createTeamRequest dst tok team)).body.getItem "id").isOk = true) ∧
    putOnlyAfterSuccCreate (transfer_teams so dst tok env).1 = true := by
  refine ⟨?_, ?_, transfer_teams_putOnly so dst tok env⟩
  · intro hs
    rcases processTeam_decomp dst tok env team with h | ⟨_, _, hs2, _⟩
    · rw [h]
      exact create_team_http_only_post dst tok team env
    · exact absurd hs2 hs
  · rintro ⟨e, he, hp⟩
    rcases processTeam_decomp dst tok env team with h | ⟨ntid, tid, hs, ht, hid, htid, h2⟩
    · rw [h] at he
      rw [create_team_no_put dst tok team env e he] at hp
      exact Bool.noConfusion hp
    · exact ⟨hs, ht, by rw [hid]; rfl⟩

/-- C1 witness: on the happy-path oracle a PUT occurs for `teamCore`, and
indeed its creation returned 201 with a truthy body carrying an id; the
whole-run PUT ordering check also holds there. -/
theorem C1_witness :
    ((envHappy (createTeamRequest (some "Zenith") (some "t") teamCore)).status = 201 ∧
     (envHappy (createTeamRequest (some "Zenith") (some "t") teamCore)).body.truthy =
       true ∧
     ((envHappy (createTeamRequest (some "Zenith") (some "t") teamCore)).body.getItem
        "id").isOk = true) ∧
    putOnlyAfterSuccCreate
      (transfer_teams (some "Acme") (some "Zenith") (some "t") envHappy).1 = true :=
  ⟨(C1_member_addition_only_after_successful_create (some "Acme") (some "Zenith")
      (some "t") envHappy teamCore).2.1
      ⟨Event.http (memberPutRequest (.num 101) (some "t") (.str "alice"))
         (envHappy (memberPutRequest (.num 101) (some "t") (.str "alice"))),
       List.Mem.tail _ (List.Mem.tail _ (List.Mem.tail _ (List.Mem.head _))), rfl⟩,
   (C1_member_addition_only_after_successful_create (some "Acme") (some "Zenith")
      (some "t") envHappy teamCore).2.2⟩

/-- C2 counterexample: with a listing of two teams whose first payload lacks
the "name" key, the run raises `KeyError` after the first POST, so only one
creation call is issued for two listed teams — not exactly one per team. -/
theorem C2_counterexample :
    (envNoName (getTeamsRequest (some "Acme") (some "t"))).status = 200 ∧
    (envNoName (getTeamsRequest (some "Acme") (some "t"))).body =
      .arr [teamNoName, teamInfra] ∧
    ((transfer_teams (some "Acme") (some "Zenith") (some "t") envNoName).1.filter
        Event.isPost).length ≠ [teamNoName, teamInfra].length := by
  refine ⟨rfl, rfl, ?_⟩
  decide

/-- C2 (amended): provided the run raises no exception, `transfer_teams`
issues exactly one creation call per listed team, in listing order, each
with the source team's verbatim payload as JSON body. -/
theorem C2_one_post_per_team (so dst tok : Option String) (env : Env)
    (ts : List JValue)
    (h200 : (env (getTeamsRequest so tok)).status = 200)
    (hbody : (env (getTeamsRequest so tok)).body = .arr ts)
    (hok : (transfer_teams so dst tok env).2 = .ok ()) :
    (transfer_teams so dst tok env).1.filter Event.isPost =
      ts.map fun t => Event.http (createTeamRequest dst tok t)
        (env (createTeamRequest dst tok t)) := by
  have hg : get_teams so tok env =
      ([Event.http (getTeamsRequest so tok) (env (getTeamsRequest so tok))],
       some (.arr ts)) := by
    simp [get_teams, h200, hbody]
  cases ts with
  | nil =>
    simp only [transfer_teams, hg, optTruthy_some, JValue.truthy, List.isEmpty_nil,
      Bool.not_true, Bool.false_eq_true, if_false, List.map_nil]
    rfl
  | cons t rest =>
    simp only [transfer_teams, hg, optTruthy_some, JValue.truthy, List.isEmpty_cons,
      Bool.not_false, if_true, Option.getD_some, pyIter] at hok ⊢
    rw [List.filter_append, List.filter_singleton]
    simp only [isPost_getTeams, if_false]
    exact transferLoop_posts_of_ok dst tok env (t :: rest) hok

/-- C2 witness: on the happy-path oracle the filtered POST events are
exactly one creation call for the single listed team. -/
theorem C2_witness :
    (transfer_teams (some "Acme") (some "Zenith") (some "t") envHappy).1.filter
        Event.isPost =
      [Event.http (createTeamRequest (some "Zenith") (some "t") teamCore)
         (envHappy (createTeamRequest (some "Zenith") (some "t") teamCore))] :=
  C2_one_post_per_team (some "Acme") (some "Zenith") (some "t") envHappy
    [teamCore] rfl rfl rfl

/-- C3: if the source listing is absent or empty (falsy), `transfer_teams`
ends right after `get_teams`, with no creation and no member-addition call
and no further output. -/
theorem C3_empty_listing_terminates_silently (so dst tok : Option String)
    (env : Env) (h : optTruthy (get_teams so tok env).2 = false) :
    transfer_teams so dst tok env = ((get_teams so tok env).1, .ok ()) ∧
    (get_teams so tok env).1.filter (fun e => e.isPost || e.isPut) = [] := by
  constructor
  · simp [transfer_teams, h]
  · simp only [get_teams]
    split <;> rfl

/-- C3 witness: on the all-failing oracle the listing is absent and the run
is exactly the `get_teams` trace with no POST or PUT. -/
theorem C3_witness :
    transfer_teams (some "Acme") (some "Zenith") (some "t") envFail =
      ((get_teams (some "Acme") (some "t") envFail).1, .ok ()) ∧
    (get_teams (some "Acme") (some "t") envFail).1.filter
      (fun e => e.isPost || e.isPut) = [] :=
  C3_empty_listing_terminates_silently (some "Acme") (some "Zenith") (some "t")
    envFail rfl

/-- C4: for a truthy team id and a list of member objects each carrying a
`login`, `add_members_to_team` issues exactly one PUT per member, in list
order, addressed by that member's login, and returns normally whatever the
individual PUT statuses are (no early abort). -/
theorem C4_one_put_per_member (tid : JValue) (tok : Option String) (env : Env)
    (ms : List JValue) (htid : tid.truthy = true)
    (h : ∀ m ∈ ms, (m.getItem "login").isOk = true) :
    ((add_members_to_team tid tok (.arr ms) env).1.filter Event.isHttp =
      ms.map fun m => Event.http (memberPutRequest tid tok (loginOf m))
        (env (memberPutRequest tid tok (loginOf m)))) ∧
    (add_members_to_team tid tok (.arr ms) env).2 = .ok () := by
  have hred : add_members_to_team tid tok (.arr ms) env =
      addMembersLoop tid tok env ms := by
    simp [add_members_to_team, htid, pyIter]
  rw [hred]
  exact addMembersLoop_spec tid tok env ms h

/-- C4 witness: adding `[memberAlice]` to team 101 issues exactly the one
PUT for alice and returns normally. -/
theorem C4_witness :
    ((add_members_to_team (.num 101) (some "t") (.arr [memberAlice])
        envHappy).1.filter Event.isHttp =
      [Event.http (memberPutRequest (.num 101) (some "t") (loginOf memberAlice))
         (envHappy (memberPutRequest (.num 101) (some "t")
           (loginOf memberAlice)))]) ∧
    (add_members_to_team (.num 101) (some "t") (.arr [memberAlice]) envHappy).2 =
      .ok () :=
  C4_one_put_per_member (.num 101) (some "t") envHappy [memberAlice] rfl
    (by intro m hm; simp only [List.mem_singleton] at hm; subst hm; rfl)

/-- C5 counterexample: `create_team` does raise — on a 201 response with a
payload lacking the "name" key it propagates `KeyError("name")`, refuting
the claim that no exception ever propagates out of the API-call functions. -/
theorem C5_counterexample :
    (create_team (some "Zenith") (some "t") teamNoName envHappy).2 =
      .error (.keyError "name") := rfl

/-- C5 (amended): HTTP-status failures never raise — `create_team` returns
normally (created body on 201, absent value otherwise) whenever its payload
carries a "name" key, and `add_members_to_team` returns normally whenever
every member carries a "login" key; the exceptions are exactly the missing
dictionary keys. -/
theorem C5_no_raise_with_required_keys :
    (∀ (dst tok : Option String) (td : JValue) (env : Env) (nm : JValue),
       td.getItem "name" = .ok nm →
       (create_team dst tok td env).2 =
         .ok (if (env (createTeamRequest dst tok td)).status = 201
              then some (env (createTeamRequest dst tok td)).body
              else none)) ∧
    (∀ (tid : JValue) (tok : Option String) (members : JValue) (env : Env)
       (mlist : List JValue), pyIter members = .ok mlist →
       (∀ m ∈ mlist, (m.getItem "login").isOk = true) →
       (add_members_to_team tid tok members env).2 = .ok ()) := by
  constructor
  · intro dst tok td env nm hn
    by_cases hs : (env (createTeamRequest dst tok td)).status = 201 <;>
      simp [create_team, hs, hn]
  · intro tid tok members env mlist hiter hall
    simp only [add_members_to_team]
    split
    · rfl
    · simp only [hiter]
      exact (addMembersLoop_spec tid tok env mlist hall).2

/-- C5 witness: with required keys present, `create_team` and
`add_members_to_team` return normally on the happy-path oracle. -/
theorem C5_witness :
    (create_team (some "Zenith") (some "t") teamCore envHappy).2 =
      .ok (if (envHappy (createTeamRequest (some "Zenith") (some "t")
             teamCore)).status = 201
           then some (envHappy (createTeamRequest (some "Zenith") (some "t")
             teamCore)).body
           else none) ∧
    (add_members_to_team (.num 101) (some "t") (.arr [memberAlice]) envHappy).2 =
      .ok () :=
  ⟨C5_no_raise_with_required_keys.1 (some "Zenith") (some "t") teamCore envHappy
     (.str "core") rfl,
   C5_no_raise_with_required_keys.2 (.num 101) (some "t") (.arr [memberAlice])
     envHappy [memberAlice] rfl
     (by intro m hm; simp only [List.mem_singleton] at hm; subst hm; rfl)⟩

/-- C6: on an absent or falsy team id, `add_members_to_team` prints the
guard diagnostic and returns normally before issuing any HTTP call,
whatever the credential and member list. -/
theorem C6_falsy_team_id_short_circuits (team_id : JValue) (tok : Option String)
    (members : JValue) (env : Env) (h : team_id.truthy = false) :
    add_members_to_team team_id tok members env =
      ([.printed invalidTeamIdMsg], .ok ()) := by
  simp [add_members_to_team, h]

/-- C6 witness: with a `None` team id the function's whole behaviour is the
guard diagnostic and a normal return. -/
theorem C6_witness :
    add_members_to_team .null (some "t") (.arr [memberAlice]) envHappy =
      ([.printed invalidTeamIdMsg], .ok ()) :=
  C6_falsy_team_id_short_circuits .null (some "t") (.arr [memberAlice]) envHappy rfl

/-- C7: each result-returning API client returns the parsed body exactly on
its expected success status (200 for the two listings, 201 for creation),
and on any other status prints a diagnostic containing the status code and
returns the absent value; each issues exactly one HTTP call (no retry).
For `create_team` the payload is assumed to carry a "name" key, since both
of its print statements subscript it. -/
theorem C7_uniform_status_handling :
    (∀ so tok env, (env (getTeamsRequest so tok)).status = 200 →
       (get_teams so tok env).2 = some (env (getTeamsRequest so tok)).body) ∧
    (∀ so tok env, (env (getTeamsRequest so tok)).status ≠ 200 →
       (get_teams so tok env).2 = none ∧
       ∃ s, Event.printed s ∈ (get_teams so tok env).1 ∧
         strContains s (toString (env (getTeamsRequest so tok)).status) = true) ∧
    (∀ tid tok env, (env (getMembersRequest tid tok)).status = 200 →
       (get_team_members tid tok env).2 =
         some (env (getMembersRequest tid tok)).body) ∧
    (∀ tid tok env, (env (getMembersRequest tid tok)).status ≠ 200 →
       (get_team_members tid tok env).2 = none ∧
       ∃ s, Event.printed s ∈ (get_team_members tid tok env).1 ∧
         strContains s (toString (env (getMembersRequest tid tok)).status) = true) ∧
    (∀ dst tok td env nm, td.getItem "name" = .ok nm →
       ((env (createTeamRequest dst tok td)).status = 201 →
          (create_team dst tok td env).2 =
            .ok (some (env (createTeamRequest dst tok td)).body)) ∧
       ((env (createTeamRequest dst tok td)).status ≠ 201 →
          (create_team dst tok td env).2 = .ok none ∧
          ∃ s, Event.printed s ∈ (create_team dst tok td env).1 ∧
            strContains s (toString (env (createTeamRequest dst tok td)).status) =
              true)) ∧
    (∀ so tok env, ((get_teams so tok env).1.filter Event.isHttp).length = 1) ∧
    (∀ tid tok env,
       ((get_team_members tid tok env).1.filter Event.isHttp).length = 1) ∧
    (∀ dst tok td env,
       ((create_team dst tok td env).1.filter Event.isHttp).length = 1) := by
  refine ⟨?_, ?_, ?_, ?_, ?_, ?_, ?_, ?_⟩
  · intro so tok env h
    simp [get_teams, h]
  · intro so tok env h
    have ht : get_teams so tok env =
        ([.http (getTeamsRequest so tok) (env (getTeamsRequest so tok)),
          .printed ("Failed to fetch teams from " ++ pyOptStr so ++
            ". Status code: " ++ toString (env (getTeamsRequest so tok)).status)],
         none) := by
      simp [get_teams, h]
    rw [ht]
    exact ⟨rfl, _, List.mem_cons.2 (Or.inr (List.mem_cons.2 (Or.inl rfl))),
      strContains_append_right _ _⟩
  · intro tid tok env h
    simp [get_team_members, h]
  · intro tid tok env h
    have ht : get_team_members tid tok env =
        ([.http (getMembersRequest tid tok) (env (getMembersRequest tid tok)),
          .printed ("Failed to fetch members for team " ++ tid.pyStr ++
            ". Status code: " ++ toString (env (getMembersRequest tid tok)).status)],
         none) := by
      simp [get_team_members, h]
    rw [ht]
    exact ⟨rfl, _, List.mem_cons.2 (Or.inr (List.mem_cons.2 (Or.inl rfl))),
      strContains_append_right _ _⟩
  · intro dst tok td env nm hn
    constructor
    · intro h
      simp [create_team, h, hn]
    · intro h
      have ht : create_team dst tok td env =
          ([.http (createTeamRequest dst tok td) (env (createTeamRequest dst tok td)),
            .printed ("Failed to create team " ++ nm.pyStr ++ " in " ++
              pyOptStr dst ++ ". Status code: " ++
              toString (env (createTeamRequest dst tok td)).status)],
           .ok none) := by
        simp [create_team, h, hn]
      rw [ht]
      exact ⟨rfl, _, List.mem_cons.2 (Or.inr (List.mem_cons.2 (Or.inl rfl))),
        strContains_append_right _ _⟩
  · intro so tok env
    simp only [get_teams]
    split <;> rfl
  · intro tid tok env
    simp only [get_team_members]
    split <;> rfl
  · intro dst tok td env
    simp only [create_team]
    split
    · split <;> rfl
    · split <;> rfl

/-- C7 witness: a 200 listing returns its body, a 500 listing returns the
absent value, and a 500 creation returns the absent value without raising. -/
theorem C7_witness :
    (get_teams (some "Acme") (some "t") envHappy).2 = some (.arr [teamCore]) ∧
    (get_teams (some "Acme") (some "t") envFail).2 = none ∧
    (create_team (some "Zenith") (some "t") teamCore envFail).2 = .ok none :=
  ⟨C7_uniform_status_handling.1 (some "Acme") (some "t") envHappy rfl,
   (C7_uniform_status_handling.2.1 (some "Acme") (some "t") envFail
      (by decide)).1,
   ((C7_uniform_status_handling.2.2.2.2.1 (some "Zenith") (some "t") teamCore
      envFail (.str "core") rfl).2 (by decide)).1⟩

/-- C8: with an unset or empty token the program prints the warning line
first and then continues into `transfer_teams`, whose first event is the
teams GET request — no exception is raised at the credential stage. -/
theorem C8_missing_token_warns_and_continues (tok so dst : Option String)
    (env : Env) (h : strOptTruthy tok = false) :
    mainProgram tok so dst env =
      (Event.printed tokenWarningMsg :: (transfer_teams so dst tok env).1,
       (transfer_teams so dst tok env).2) ∧
    (transfer_teams so dst tok env).1.head? =
      some (.http (getTeamsRequest so tok) (env (getTeamsRequest so tok))) := by
  constructor
  · simp [mainProgram, credentialLoad, h]
  · simp only [transfer_teams]
    split
    · split
      · rw [get_teams_head]
        rfl
      · rw [get_teams_head]
        rfl
    · rw [get_teams_head]
      rfl

/-- C8 witness: with no token the run starts with the warning and still
issues the teams GET. -/
theorem C8_witness :
    mainProgram none (some "Acme") (some "Zenith") envFail =
      (Event.printed tokenWarningMsg ::
        (transfer_teams (some "Acme") (some "Zenith") none envFail).1,
       (transfer_teams (some "Acme") (some "Zenith") none envFail).2) ∧
    (transfer_teams (some "Acme") (some "Zenith") none envFail).1.head? =
      some (.http (getTeamsRequest (some "Acme") none)
        (envFail (getTeamsRequest (some "Acme") none))) :=
  C8_missing_token_warns_and_continues none (some "Acme") (some "Zenith")
    envFail rfl

/-- C9: when the access token is absent, every HTTP request of the whole
run still carries an Authorization header whose value is the literal string
"Bearer None". -/
theorem C9_authorization_header_bearer_none (so dst : Option String)
    (env : Env) (req : Request) (resp : Response)
    (hm : Event.http req resp ∈ (mainProgram none so dst env).1) :
    req.headers = [("Authorization", "Bearer None")] :=
  mainProgram_headers none so dst env req resp hm

/-- C9 witness: the teams GET issued by a token-less run carries the
"Bearer None" Authorization header. -/
theorem C9_witness :
    (getTeamsRequest (some "A") none).headers =
      [("Authorization", "Bearer None")] :=
  C9_authorization_header_bearer_none (some "A") (some "B") envFail
    (getTeamsRequest (some "A") none)
    (envFail (getTeamsRequest (some "A") none))
    (List.Mem.tail _ (List.Mem.head _))

/-- C10: when the member fetch returns an empty list for a team whose
creation succeeded, the loop iteration stops after the fetch — its trace is
exactly the POST, the creation-success line, and the members GET, with no
PUT and no guard diagnostic (so `add_members_to_team` was never entered). -/
theorem C10_empty_member_list_skips_add (dst tok : Option String) (env : Env)
    (team ntid nm tid : JValue)
    (hs : (env (createTeamRequest dst tok team)).status = 201)
    (ht : (env (createTeamRequest dst tok team)).body.truthy = true)
    (hid : (env (createTeamRequest dst tok team)).body.getItem "id" = .ok ntid)
    (hn : team.getItem "name" = .ok nm)
    (htid : team.getItem "id" = .ok tid)
    (hm200 : (env (getMembersRequest tid tok)).status = 200)
    (hmbody : (env (getMembersRequest tid tok)).body = .arr []) :
    processTeam dst tok env team =
      ([Event.http (createTeamRequest dst tok team)
          (env (createTeamRequest dst tok team)),
        Event.printed ("Team - " ++ nm.pyStr ++ " created successfully in " ++
          pyOptStr dst),
        Event.http (getMembersRequest tid tok) (env (getMembersRequest tid tok))],
       .ok ()) ∧
    (processTeam dst tok env team).1.filter Event.isPut = [] ∧
    Event.printed invalidTeamIdMsg ∉ (processTeam dst tok env team).1 := by
  have hc : create_team dst tok team env =
      ([Event.http (createTeamRequest dst tok team)
         (env (createTeamRequest dst tok team)),
        Event.printed ("Team - " ++ nm.pyStr ++ " created successfully in " ++
          pyOptStr dst)],
       .ok (some (env (createTeamRequest dst tok team)).body)) := by
    simp [create_team, hs, hn]
  have hfetch : get_team_members tid tok env =
      ([Event.http (getMembersRequest tid tok) (env (getMembersRequest tid tok))],
       some (.arr [])) := by
    simp [get_team_members, hm200, hmbody]
  have h1 : processTeam dst tok env team =
      ([Event.http (createTeamRequest dst tok team)
          (env (createTeamRequest dst tok team)),
        Event.printed ("Team - " ++ nm.pyStr ++ " created successfully in " ++
          pyOptStr dst),
        Event.http (getMembersRequest tid tok) (env (getMembersRequest tid tok))],
       .ok ()) := by
    simp only [processTeam, hc, optTruthy_some, ht, if_pos, Option.getD_some,
      hid, htid, hfetch]
    rfl
  refine ⟨h1, ?_, ?_⟩
  · rw [h1]
    rfl
  · rw [h1]
    simp only [List.mem_cons, List.not_mem_nil, or_false, not_or]
    refine ⟨by simp, ?_, by simp⟩
    intro hcontra
    injection hcontra with hstr
    exact createdMsg_ne_invalid nm.pyStr (pyOptStr dst) hstr.symm

/-- C10 witness: on the oracle whose member listings are empty, processing
`teamCore` produces exactly the POST, the success line and the members GET,
with no PUT and no guard diagnostic. -/
theorem C10_witness :
    processTeam (some "Zenith") (some "t") envEmptyMembers teamCore =
      ([Event.http (createTeamRequest (some "Zenith") (some "t") teamCore)
          (envEmptyMembers (createTeamRequest (some "Zenith") (some "t") teamCore)),
        Event.printed "Team - core created successfully in Zenith",
        Event.http (getMembersRequest (.num 1) (some "t"))
          (envEmptyMembers (getMembersRequest (.num 1) (some "t")))],
       .ok ()) ∧
    (processTeam (some "Zenith") (some "t") envEmptyMembers teamCore).1.filter
      Event.isPut = [] ∧
    Event.printed invalidTeamIdMsg ∉
      (processTeam (some "Zenith") (some "t") envEmptyMembers teamCore).1 :=
  C10_empty_member_list_skips_add (some "Zenith") (some "t") envEmptyMembers
    teamCore (.num 101) (.str "core") (.num 1) rfl rfl rfl rfl rfl rfl rfl
